import Mathlib

/-!
# Shallow embedding of the summarize-mcp server

This file models `src/summarize_mcp/server.py`, an MCP server exposing three
tools (`play_summary`, `set_voice`, `set_tone`) backed by a persisted
`{voice, tone}` preference record, a platform-adaptive audio-player selector,
and a temp-file manager for synthesized speech artifacts.

Python I/O is modelled explicitly: the state file is a `FileContent` value,
clock readings and provider/filesystem outcomes are parameters of the
handlers, and each handler returns its response string together with the
resulting in-memory state and a record of the side effects it performed.
-/

namespace SummarizeMcp

/-- Model of `VALID_VOICES` from server.py line 36. -/
def VALID_VOICES : List String :=
  ["alloy", "ash", "ballad", "coral", "echo", "fable", "nova", "onyx", "sage", "shimmer"]

/-- Model of `CONFIG["default_voice"]` (server.py line 30). -/
def default_voice : String := "coral"

/-- Model of `CONFIG["default_instructions"]` (server.py line 31). -/
def default_instructions : String :=
  "Keep the summary as short and concise as possible. Speak in a clear and informative tone."

/-- The in-memory preference record, `UserState` (server.py lines 74-76).
The pydantic model has two plain `str` fields with defaults; it carries no
membership validator. -/
structure UserState where
  voice : String
  tone : String
  deriving DecidableEq, Repr

/-- Model of `UserState()` with no arguments: both fields take their defaults
(server.py lines 75-76, used at line 87 and in the `except` arm of
`load_state`). -/
def initialState : UserState := ⟨default_voice, default_instructions⟩

/-- The contents of the state file at `CONFIG["state_file"]`, as `load_state`
distinguishes them: the file may be missing (`exists()` is false, so the body
is skipped), it may fail to parse or fail pydantic type validation (any
exception lands in the `except` arm), or it may hold a JSON object whose
`voice`/`tone` keys are present string values or absent (pydantic fills
absent fields from the defaults; extra keys are ignored). -/
inductive FileContent where
  | missing
  | malformed
  | record (voice : Option String) (tone : Option String)
  deriving DecidableEq, Repr

/-- Model of `UserState(**data)` on a parsed record: each absent field takes its
default; a present string field is taken verbatim — `UserState` performs no
membership check on `voice` (server.py lines 74-76). -/
def stateOfRecord (voice tone : Option String) : UserState :=
  ⟨voice.getD default_voice, tone.getD default_instructions⟩

/-- Model of `load_state` (server.py lines 90-101): if the file does not exist nothing
happens (the current state is kept); if reading/parsing/validation raises,
the state is reset to `UserState()`; otherwise the state becomes
`UserState(**data)`. -/
def load_state (file : FileContent) (current : UserState) : UserState :=
  match file with
  | .missing => current
  | .malformed => initialState
  | .record v t => stateOfRecord v t

/-- Model of `save_state` (server.py lines 104-111): writes
`json.dump(current_state.model_dump())`: a record with both fields present.
The model describes the successful write; in the source a write failure is
logged and leaves the previous file contents in place. -/
def save_state (s : UserState) : FileContent :=
  .record (some s.voice) (some s.tone)

/-- The message of the `ValueError` raised by the `validate_voice` field
validators (server.py lines 56 and 66): it enumerates every allowed voice. -/
def voiceErrorMsg : String :=
  "Voice must be one of: " ++ String.intercalate ", " VALID_VOICES

/-- The per-field lines of a pydantic validation failure as the handlers
format them: `f"{loc}: {msg}"` (server.py lines 341-343), with pydantic's
`Value error, ` prelude on a `ValueError` raised inside a field validator and
its stock message for a `min_length` violation. -/
def summaryLengthError : String :=
  "summary: String should have at least 1 character"

def voiceValueError : String :=
  "voice: Value error, " ++ voiceErrorMsg

def toneLengthError : String :=
  "tone: String should have at least 1 character"

/-- The validation errors collected by `PlaySummaryArgs(summary=…, voice=…,
instructions=…)` (server.py lines 48-57): `summary` has `min_length=1`,
`voice` must be absent or a member of `VALID_VOICES`, and `instructions` is
unconstrained. Pydantic reports every failing field. -/
def validationErrors (summary : String) (voice : Option String) : List String :=
  (if summary = "" then [summaryLengthError] else []) ++
    (match voice with
     | some v => if v ∈ VALID_VOICES then [] else [voiceValueError]
     | none => [])

/-- Python's `a or b` applied to an optional string `a` (server.py lines
296-297): `None` and the empty string are both falsy, so either yields `b`. -/
def orFallback (v : Option String) (fb : String) : String :=
  match v with
  | none => fb
  | some x => if x = "" then fb else x

/-- Model of the artifact name `f"speech_{timestamp}.mp3"` with `timestamp = int(time.time() * 1000)`
(server.py lines 302-303): the artifact file name is the decimal millisecond
timestamp between a fixed prelude and a fixed extension. -/
def speechFileName (timestamp : Nat) : String :=
  "speech_" ++ Nat.repr timestamp ++ ".mp3"

/-- The outcome of the effectful steps inside `play_summary`'s `try` body
once validation has passed: the provider call, the stream-to-file write and
the player launch may each raise. `TTSError` carries a code (server.py lines
80-83, 345-346); any other exception is formatted from its message. -/
inductive TtsOutcome where
  | ok
  | createTtsError (code msg : String)
  | createOtherError (msg : String)
  | streamError (msg : String)
  | playError (msg : String)
  deriving DecidableEq, Repr

/-- Result of one `play_summary` call: the returned string, the in-memory
state afterwards, and the observable side effects — whether `save_state` ran,
whether the provider was invoked, whether the artifact file was written, the
artifact path if one was generated, and the voice/instructions handed to the
provider. -/
structure PlayResult where
  response : String
  state : UserState
  saved : Bool
  providerCalled : Bool
  fileWritten : Bool
  speechFile : Option String
  usedVoice : Option String
  usedInstructions : Option String
  deriving DecidableEq, Repr

/-- Model of `play_summary` (server.py lines 283-348). Validation happens first (line
293); the effective voice and instructions fall back to the saved state
through Python `or` (lines 296-297); the artifact path is keyed by the
millisecond timestamp (lines 302-303); the provider is invoked, the response
streamed to the file and playback started (lines 306-319); nothing in the
body touches `current_state` or calls `save_state`. Every exception is
converted to a `❌` string (lines 335-348). -/
def play_summary (summary : String) (voice instructions : Option String)
    (timestamp : Nat) (outcome : TtsOutcome) (s : UserState) : PlayResult :=
  let errs := validationErrors summary voice
  if errs.isEmpty then
    let effVoice := orFallback voice s.voice
    let effInstr := orFallback instructions s.tone
    let path := speechFileName timestamp
    match outcome with
    | .ok =>
      { response := "✅ Summary converted to speech and playing in the background\nVoice: "
          ++ effVoice ++ "\nLength: " ++ Nat.repr summary.length ++ " characters"
        state := s, saved := false, providerCalled := true, fileWritten := true
        speechFile := some path, usedVoice := some effVoice, usedInstructions := some effInstr }
    | .createTtsError code msg =>
      { response := "❌ TTS Error (" ++ code ++ "): " ++ msg
        state := s, saved := false, providerCalled := true, fileWritten := false
        speechFile := some path, usedVoice := some effVoice, usedInstructions := some effInstr }
    | .createOtherError msg =>
      { response := "❌ Error playing summary: " ++ msg
        state := s, saved := false, providerCalled := true, fileWritten := false
        speechFile := some path, usedVoice := some effVoice, usedInstructions := some effInstr }
    | .streamError msg =>
      { response := "❌ Error playing summary: " ++ msg
        state := s, saved := false, providerCalled := true, fileWritten := false
        speechFile := some path, usedVoice := some effVoice, usedInstructions := some effInstr }
    | .playError msg =>
      { response := "❌ Error playing summary: " ++ msg
        state := s, saved := false, providerCalled := true, fileWritten := true
        speechFile := some path, usedVoice := some effVoice, usedInstructions := some effInstr }
  else
    { response := "❌ Invalid arguments: " ++ String.intercalate ", " errs
      state := s, saved := false, providerCalled := false, fileWritten := false
      speechFile := none, usedVoice := none, usedInstructions := none }

/-- Result of a `set_voice` or `set_tone` call: the returned string, the
in-memory state afterwards, and whether `save_state` was invoked. -/
structure ToolResult where
  response : String
  state : UserState
  saved : Bool
  deriving DecidableEq, Repr

/-- Model of `set_voice` (server.py lines 354-383): `SetVoiceArgs` validates
membership in `VALID_VOICES`; on success the state's voice is replaced and
`save_state` runs; a validation failure is formatted into a `❌` string and
nothing is mutated. -/
def set_voice (voice : String) (s : UserState) : ToolResult :=
  if voice ∈ VALID_VOICES then
    { response := "✅ Default voice set to: " ++ voice
        ++ "\n\nAll future audio summaries will use this voice unless specifically overridden."
      state := { s with voice := voice }, saved := true }
  else
    { response := "❌ Invalid arguments: " ++ voiceValueError
      state := s, saved := false }

/-- Model of `set_tone` (server.py lines 389-418): `SetToneArgs` requires
`min_length=1`; on success the state's tone is replaced and `save_state`
runs; the empty string is rejected with a `❌` string and nothing is
mutated. -/
def set_tone (tone : String) (s : UserState) : ToolResult :=
  if tone = "" then
    { response := "❌ Invalid arguments: " ++ toneLengthError
      state := s, saved := false }
  else
    { response := "✅ Default tone set to: \"" ++ tone
        ++ "\"\n\nAll future audio summaries will use this tone unless specifically overridden."
      state := { s with tone := tone }, saved := true }

/-- The facts about the host that the player checks consult:
`platform.system()` and `shutil.which` (server.py lines 132-135, 149-150,
172-185). -/
structure Env where
  system : String
  which : String → Option String

/-- Model of `AfplayPlayer.check` (server.py lines 132-135): Darwin and `afplay` on
the search path. -/
def afplayCheck (e : Env) : Bool :=
  e.system = "Darwin" && (e.which "afplay").isSome

/-- Model of `WindowsPlayer.check` (server.py lines 149-150): platform identity
only. -/
def windowsCheck (e : Env) : Bool :=
  e.system = "Windows"

/-- The candidate Linux playback commands, in preference order (server.py
line 177). -/
def linuxCommands : List String :=
  ["mpg123", "play", "aplay", "ffplay", "cvlc"]

/-- Model of `LinuxPlayer.check` (server.py lines 172-185): Linux and at least one of
the candidate commands on the search path. -/
def linuxCheck (e : Env) : Bool :=
  e.system = "Linux" && linuxCommands.any (fun p => (e.which p).isSome)

/-- Model of `FallbackPlayer.check` (server.py lines 210-211): always available. -/
def fallbackCheck (_ : Env) : Bool :=
  true

/-- The four player variants, identified by kind. -/
inductive PlayerKind where
  | afplay
  | windows
  | linux
  | fallback
  deriving DecidableEq, Repr

/-- The candidate list built in `get_audio_player` (server.py lines 231-236),
each paired with its availability check. -/
def audioPlayers : List (PlayerKind × (Env → Bool)) :=
  [(.afplay, afplayCheck), (.windows, windowsCheck),
   (.linux, linuxCheck), (.fallback, fallbackCheck)]

/-- Model of `get_audio_player` (server.py lines 229-243): return the first candidate
whose check succeeds, or `none` when every check fails. -/
def get_audio_player (e : Env) : Option PlayerKind :=
  (audioPlayers.find? (fun p => p.2 e)).map Prod.fst

/-- A file in the scratch directory, as the cleanup sweep sees it: its name
and its modification time (`file.stat().st_mtime`, in seconds). -/
structure TempFile where
  name : String
  mtime : Int
  deriving DecidableEq, Repr

/-- The glob pattern `speech_*.mp3` (server.py line 263): the name is
`"speech_"` followed by anything followed by `".mp3"`. -/
def matchesSpeechGlob (name : String) : Bool :=
  "speech_".data.isPrefixOf name.data && ".mp3".data.isSuffixOf (name.data.drop 7)

/-- Model of `cleanup_old_files` (server.py lines 255-273), as the list of surviving
files: a file is unlinked exactly when its name matches the glob and
`now - st_mtime > 3600`. The model describes successful deletions; in the
source a failed unlink is swallowed and the file survives. -/
def cleanup_old_files (now : Int) (files : List TempFile) : List TempFile :=
  files.filter (fun f => !(matchesSpeechGlob f.name && decide (now - f.mtime > 3600)))

/-- One tool call with the arguments the protocol layer delivered and, for
`play_summary`, the clock reading and the runtime outcome of its effectful
steps. -/
inductive ToolCall where
  | playTool (summary : String) (voice instructions : Option String)
      (timestamp : Nat) (outcome : TtsOutcome)
  | voiceTool (voice : String)
  | toneTool (tone : String)

/-- The in-memory state after handling one tool call. -/
def applyCall (c : ToolCall) (s : UserState) : UserState :=
  match c with
  | .playTool su v i t o => (play_summary su v i t o s).state
  | .voiceTool v => (set_voice v s).state
  | .toneTool t => (set_tone t s).state

/-- The in-memory state after handling a sequence of tool calls. -/
def runCalls (calls : List ToolCall) (s : UserState) : UserState :=
  calls.foldl (fun st c => applyCall c st) s

/-- The first character of a string, used to state the `✅`/`❌` response
marker discipline. -/
def firstChar (s : String) : Option Char :=
  s.data.head?

/-- The decimal digit characters of `n`, most significant first: the list
that `Nat.toDigitsCore` accumulates when given enough fuel. -/
def natChars (n : Nat) : List Char :=
  if n < 10 then [Nat.digitChar n]
  else natChars (n / 10) ++ [Nat.digitChar (n % 10)]
decreasing_by omega

theorem firstChar_append (a b : String) (c : Char) (h : firstChar a = some c) :
    firstChar (a ++ b) = some c := by
  unfold firstChar at h ⊢
  rw [String.data_append]
  cases hl : a.data with
  | nil => rw [hl] at h; simp at h
  | cons c2 cs => rw [hl] at h; simpa using h

theorem natChars_lt (n : Nat) (h : n < 10) : natChars n = [Nat.digitChar n] := by
  rw [natChars, if_pos h]

theorem natChars_ge (n : Nat) (h : ¬ n < 10) :
    natChars n = natChars (n / 10) ++ [Nat.digitChar (n % 10)] := by
  rw [natChars]
  exact if_neg h

theorem natChars_ne_nil (n : Nat) : natChars n ≠ [] := by
  by_cases h : n < 10
  · rw [natChars_lt n h]; simp
  · rw [natChars_ge n h]; simp

theorem toDigitsCore_eq_natChars (fuel : Nat) :
    ∀ n ds, n < fuel → Nat.toDigitsCore 10 fuel n ds = natChars n ++ ds := by
  induction fuel with
  | zero => intro n ds h; omega
  | succ f ih =>
    intro n ds h
    rw [Nat.toDigitsCore]
    by_cases h10 : n / 10 = 0
    · have hn : n < 10 := by omega
      have hmod : n % 10 = n := Nat.mod_eq_of_lt hn
      simp only [h10, if_pos rfl, hmod]
      rw [natChars_lt n hn]
      simp
    · have hn : ¬ n < 10 := by omega
      have hdiv : n / 10 < f := by omega
      simp only [h10, if_neg h10]
      rw [ih (n / 10) _ hdiv, natChars_ge n hn]
      simp

theorem toDigits_eq_natChars (n : Nat) : Nat.toDigits 10 n = natChars n := by
  rw [Nat.toDigits, toDigitsCore_eq_natChars (n + 1) n [] (Nat.lt_succ_self n)]
  simp

theorem digitChar_inj : ∀ m < 10, ∀ n < 10, Nat.digitChar m = Nat.digitChar n → m = n := by
  decide

theorem natChars_injective : ∀ m n, natChars m = natChars n → m = n := by
  intro m
  induction m using Nat.strong_induction_on with
  | _ m ih =>
    intro n h
    by_cases hm : m < 10 <;> by_cases hn : n < 10
    · rw [natChars_lt m hm, natChars_lt n hn] at h
      exact digitChar_inj m hm n hn (by simpa using h)
    · rw [natChars_lt m hm, natChars_ge n hn] at h
      have := congrArg List.length h
      simp at this
      exact absurd this (natChars_ne_nil (n / 10))
    · rw [natChars_ge m hm, natChars_lt n hn] at h
      have := congrArg List.length h
      simp at this
      exact absurd this (natChars_ne_nil (m / 10))
    · rw [natChars_ge m hm, natChars_ge n hn] at h
      obtain ⟨h1, h2⟩ := List.append_inj' h rfl
      have hmod : m % 10 = n % 10 :=
        digitChar_inj (m % 10) (Nat.mod_lt m (by omega)) (n % 10) (Nat.mod_lt n (by omega))
          (by simpa using h2)
      have hdivlt : m / 10 < m := by omega
      have hdiv : m / 10 = n / 10 := ih (m / 10) hdivlt (n / 10) h1
      omega

theorem nat_repr_injective (m n : Nat) (h : Nat.repr m = Nat.repr n) : m = n := by
  apply natChars_injective
  rw [← toDigits_eq_natChars, ← toDigits_eq_natChars]
  have := congrArg String.data h
  simpa [Nat.repr, List.asString] using this

theorem speechFileName_injective (t1 t2 : Nat)
    (h : speechFileName t1 = speechFileName t2) : t1 = t2 := by
  apply nat_repr_injective
  unfold speechFileName at h
  have hd := congrArg String.data h
  simp only [String.data_append, List.append_assoc] at hd
  have h1 := List.append_cancel_left hd
  have h2 := List.append_cancel_right h1
  exact String.ext h2

theorem play_summary_state_eq (su : String) (v i : Option String) (t : Nat)
    (o : TtsOutcome) (s : UserState) : (play_summary su v i t o s).state = s := by
  cases o <;> simp only [play_summary] <;> split <;> rfl

theorem play_summary_saved_eq (su : String) (v i : Option String) (t : Nat)
    (o : TtsOutcome) (s : UserState) : (play_summary su v i t o s).saved = false := by
  cases o <;> simp only [play_summary] <;> split <;> rfl

theorem play_summary_speechFile_eq (su : String) (v i : Option String) (t : Nat)
    (o : TtsOutcome) (s : UserState) (p : String)
    (h : (play_summary su v i t o s).speechFile = some p) : p = speechFileName t := by
  cases o <;> simp only [play_summary] at h <;> split at h <;> simp_all

theorem set_tone_voice_eq (tone : String) (s : UserState) :
    (set_tone tone s).state.voice = s.voice := by
  unfold set_tone
  split <;> rfl

/-- Claim C3: the audio player selector evaluates the fixed ordered
candidate list and returns the first candidate whose check succeeds, and —
because the fallback's check succeeds in every environment — it always
returns a player, never the no-player-found result `none`. -/
theorem c3_selector_always_finds_player (e : Env) :
    (get_audio_player e).isSome = true ∧
      (afplayCheck e = true → get_audio_player e = some PlayerKind.afplay) ∧
      (afplayCheck e = false → windowsCheck e = true →
        get_audio_player e = some PlayerKind.windows) ∧
      (afplayCheck e = false → windowsCheck e = false → linuxCheck e = true →
        get_audio_player e = some PlayerKind.linux) ∧
      (afplayCheck e = false → windowsCheck e = false → linuxCheck e = false →
        get_audio_player e = some PlayerKind.fallback) := by
  cases h1 : afplayCheck e <;> cases h2 : windowsCheck e <;> cases h3 : linuxCheck e <;>
    refine ⟨?_, ?_, ?_, ?_, ?_⟩ <;>
      simp_all [get_audio_player, audioPlayers, List.find?, fallbackCheck]

theorem c3_selector_always_finds_player_witness :
    (get_audio_player
        ⟨"Linux", fun p => if p = "mpg123" then some "/usr/bin/mpg123" else none⟩).isSome
      = true ∧
      get_audio_player
          ⟨"Linux", fun p => if p = "mpg123" then some "/usr/bin/mpg123" else none⟩
        = some PlayerKind.linux :=
  ⟨(c3_selector_always_finds_player
      ⟨"Linux", fun p => if p = "mpg123" then some "/usr/bin/mpg123" else none⟩).1,
    (c3_selector_always_finds_player
        ⟨"Linux", fun p => if p = "mpg123" then some "/usr/bin/mpg123" else none⟩).2.2.2.1
      rfl rfl rfl⟩

/-- Claim C5: for every non-empty tone `T`, `set_tone T` followed by a fresh
process's `load_state` of the saved preference file yields a record whose
tone is `T` — save then load round-trips the preference record. -/
theorem c5_tone_roundtrip (T : String) (hT : T ≠ "") (s prior : UserState) :
    (load_state (save_state ((set_tone T s).state)) prior).tone = T := by
  unfold set_tone
  rw [if_neg hT]
  rfl

theorem c5_tone_roundtrip_witness :
    (load_state (save_state ((set_tone "Speak slowly" initialState).state)) initialState).tone
      = "Speak slowly" :=
  c5_tone_roundtrip "Speak slowly" (by decide) initialState initialState

/-- Claim C9: the startup cleanup sweep deletes exactly the files in the
scratch directory that match the `speech_*.mp3` pattern and whose
modification age exceeds the one-hour threshold; a matching file at or under
the threshold, and any non-matching file, survives. -/
theorem c9_cleanup_exactly_stale (now : Int) (files : List TempFile) (f : TempFile) :
    f ∈ cleanup_old_files now files ↔
      f ∈ files ∧ ¬(matchesSpeechGlob f.name = true ∧ now - f.mtime > 3600) := by
  unfold cleanup_old_files
  rw [List.mem_filter]
  simp [not_and, Decidable.imp_iff_not_or]

/-- Claim C10: in `play_summary`, an explicitly provided empty-string
`instructions` argument is treated exactly like an absent one — the
fallback is Python truthiness, so the instructions handed to the synthesis
provider are the stored tone preference, not the empty argument string. -/
theorem c10_empty_instructions_like_absent (summary : String) (hsu : summary ≠ "")
    (timestamp : Nat) (outcome : TtsOutcome) (s : UserState) :
    (play_summary summary none (some "") timestamp outcome s).usedInstructions
        = (play_summary summary none none timestamp outcome s).usedInstructions ∧
      (play_summary summary none (some "") timestamp outcome s).usedInstructions
        = some s.tone := by
  have he : validationErrors summary none = [] := by
    unfold validationErrors
    simp [hsu]
  cases outcome <;> simp [play_summary, he, orFallback]

theorem c10_empty_instructions_like_absent_witness :
    (play_summary "hello" none (some "") 7 .ok initialState).usedInstructions
        = (play_summary "hello" none none 7 .ok initialState).usedInstructions ∧
      (play_summary "hello" none (some "") 7 .ok initialState).usedInstructions
        = some initialState.tone :=
  c10_empty_instructions_like_absent "hello" (by decide) 7 .ok initialState

theorem runCalls_voice_mem (calls : List ToolCall) (s : UserState)
    (h : s.voice ∈ VALID_VOICES) : (runCalls calls s).voice ∈ VALID_VOICES := by
  induction calls generalizing s with
  | nil => exact h
  | cons c cs ih =>
    rw [runCalls, List.foldl_cons]
    apply ih
    cases c with
    | playTool su v i t o =>
      rw [applyCall, play_summary_state_eq]
      exact h
    | voiceTool v =>
      rw [applyCall]
      unfold set_voice
      by_cases hv : v ∈ VALID_VOICES
      · rw [if_pos hv]
        exact hv
      · rw [if_neg hv]
        exact h
    | toneTool t =>
      rw [applyCall, set_tone_voice_eq]
      exact h

/-- Claim C1 counterexample: `load_state` performs no membership check on a
persisted voice string — a record whose voice is `"robot"` (not in
`VALID_VOICES`) is loaded verbatim at startup, with no default
substituted. -/
theorem c1_load_keeps_out_of_set_voice :
    (load_state (.record (some "robot") (some "hi")) initialState).voice = "robot" ∧
      "robot" ∉ VALID_VOICES ∧ "robot" ≠ default_voice :=
  ⟨rfl, by decide, by decide⟩

/-- Claim C1 (amended): provided the persisted record's voice field, when
present, lies in `VALID_VOICES`, every state reachable after startup load
and any sequence of tool calls has its voice in `VALID_VOICES`; and a
persisted record whose voice is absent loads as the default voice. A
persisted voice string outside the set, however, is loaded verbatim
(`UserState` has no membership validator), so the unconditional invariant
fails at startup. -/
theorem c1_voice_invariant_amended (file : FileContent) (calls : List ToolCall)
    (hfile : ∀ v t, file = FileContent.record (some v) t → v ∈ VALID_VOICES) :
    (runCalls calls (load_state file initialState)).voice ∈ VALID_VOICES ∧
      ∀ t, (load_state (.record none t) initialState).voice = default_voice := by
  refine ⟨?_, fun t => rfl⟩
  apply runCalls_voice_mem
  cases file with
  | missing => decide
  | malformed => decide
  | record v t =>
    cases v with
    | none =>
      show default_voice ∈ VALID_VOICES
      decide
    | some v' => exact hfile v' t rfl

theorem c1_voice_invariant_amended_witness :
    (runCalls
        [ToolCall.voiceTool "ash", ToolCall.toneTool "calm",
          ToolCall.playTool "hi" none none 5 TtsOutcome.ok]
        (load_state (FileContent.record (some "nova") (some "x")) initialState)).voice
      ∈ VALID_VOICES :=
  (c1_voice_invariant_amended (FileContent.record (some "nova") (some "x")) _
    (by
      intro v t h
      injection h with h1 h2
      injection h1 with h1
      subst h1
      decide)).1

/-- Claim C2: a voice string outside `VALID_VOICES` makes `set_voice`, and
`play_summary` with it as the explicit voice argument, return the
`❌ Invalid arguments` string whose voice line enumerates every allowed
voice, and leaves the in-memory preference record (both fields) unchanged
and unsaved. -/
theorem c2_invalid_voice_rejected (v : String) (hv : v ∉ VALID_VOICES)
    (summary : String) (instructions : Option String) (timestamp : Nat)
    (outcome : TtsOutcome) (s : UserState) :
    (set_voice v s).response = "❌ Invalid arguments: " ++ voiceValueError ∧
      (set_voice v s).state = s ∧
      (set_voice v s).saved = false ∧
      voiceValueError
        = "voice: Value error, Voice must be one of: alloy, ash, ballad, coral, echo, fable, nova, onyx, sage, shimmer" ∧
      voiceValueError ∈ validationErrors summary (some v) ∧
      (play_summary summary (some v) instructions timestamp outcome s).response
        = "❌ Invalid arguments: "
            ++ String.intercalate ", " (validationErrors summary (some v)) ∧
      (play_summary summary (some v) instructions timestamp outcome s).state = s ∧
      (play_summary summary (some v) instructions timestamp outcome s).saved = false := by
  have hmem : voiceValueError ∈ validationErrors summary (some v) := by
    unfold validationErrors
    simp [hv]
  have hne : (validationErrors summary (some v)).isEmpty = false := by
    cases herrs : validationErrors summary (some v) with
    | nil => rw [herrs] at hmem; simp at hmem
    | cons a l => rfl
  refine ⟨?_, ?_, ?_, rfl, hmem, ?_,
    play_summary_state_eq summary (some v) instructions timestamp outcome s,
    play_summary_saved_eq summary (some v) instructions timestamp outcome s⟩
  · unfold set_voice; rw [if_neg hv]
  · unfold set_voice; rw [if_neg hv]
  · unfold set_voice; rw [if_neg hv]
  · cases outcome <;> simp [play_summary, hne]

theorem c2_invalid_voice_rejected_witness :
    (set_voice "robot" initialState).response = "❌ Invalid arguments: " ++ voiceValueError ∧
      (set_voice "robot" initialState).state = initialState ∧
      (set_voice "robot" initialState).saved = false ∧
      voiceValueError
        = "voice: Value error, Voice must be one of: alloy, ash, ballad, coral, echo, fable, nova, onyx, sage, shimmer" ∧
      voiceValueError ∈ validationErrors "hi" (some "robot") ∧
      (play_summary "hi" (some "robot") none 3 .ok initialState).response
        = "❌ Invalid arguments: "
            ++ String.intercalate ", " (validationErrors "hi" (some "robot")) ∧
      (play_summary "hi" (some "robot") none 3 .ok initialState).state = initialState ∧
      (play_summary "hi" (some "robot") none 3 .ok initialState).saved = false :=
  c2_invalid_voice_rejected "robot" (by decide) "hi" none 3 .ok initialState

/-- Claim C4 counterexample: two distinct successful `play_summary` calls
that observe the same millisecond clock value generate the same artifact
path — the timestamp key does not guarantee uniqueness within the
process. -/
theorem c4_same_millisecond_collision :
    play_summary "hi" none none 1733000000000 .ok initialState
        ≠ play_summary "hello" none none 1733000000000 .ok initialState ∧
      (play_summary "hi" none none 1733000000000 .ok initialState).speechFile
        = (play_summary "hello" none none 1733000000000 .ok initialState).speechFile ∧
      (play_summary "hi" none none 1733000000000 .ok initialState).speechFile.isSome
        = true := by
  refine ⟨by decide, rfl, rfl⟩

/-- Claim C4 (amended): the artifact path is keyed by the millisecond
timestamp taken at the call, so two calls whose clock readings differ get
distinct paths; uniqueness is guaranteed only across distinct millisecond
timestamps, not across distinct calls (same-millisecond calls collide). -/
theorem c4_distinct_timestamps_distinct_paths (su1 su2 : String)
    (v1 v2 i1 i2 : Option String) (t1 t2 : Nat) (o1 o2 : TtsOutcome)
    (s1 s2 : UserState) (p1 p2 : String) (hne : t1 ≠ t2)
    (h1 : (play_summary su1 v1 i1 t1 o1 s1).speechFile = some p1)
    (h2 : (play_summary su2 v2 i2 t2 o2 s2).speechFile = some p2) :
    p1 ≠ p2 := by
  rw [play_summary_speechFile_eq su1 v1 i1 t1 o1 s1 p1 h1,
    play_summary_speechFile_eq su2 v2 i2 t2 o2 s2 p2 h2]
  intro h
  exact hne (speechFileName_injective t1 t2 h)

theorem c4_distinct_timestamps_distinct_paths_witness :
    speechFileName 1 ≠ speechFileName 2 :=
  c4_distinct_timestamps_distinct_paths "hi" "yo" none none none none 1 2 .ok .ok
    initialState initialState (speechFileName 1) (speechFileName 2)
    (by decide) rfl rfl

/-- Claim C6: each of the three handlers returns a string on every input and
every provider/filesystem outcome (the embedding is total), every response
begins with `✅` or `❌`, and a `play_summary` call whose effectful steps
raised returns a string beginning with the failure marker `❌`. -/
theorem c6_handlers_marker_discipline (summary : String)
    (voice instructions : Option String) (timestamp : Nat) (outcome : TtsOutcome)
    (v t : String) (s : UserState) :
    (firstChar (play_summary summary voice instructions timestamp outcome s).response
          = some '✅'
        ∨ firstChar (play_summary summary voice instructions timestamp outcome s).response
          = some '❌') ∧
      (firstChar (set_voice v s).response = some '✅'
        ∨ firstChar (set_voice v s).response = some '❌') ∧
      (firstChar (set_tone t s).response = some '✅'
        ∨ firstChar (set_tone t s).response = some '❌') ∧
      (outcome ≠ TtsOutcome.ok →
        firstChar (play_summary summary voice instructions timestamp outcome s).response
          = some '❌') := by
  have hplay : ∀ o : TtsOutcome,
      (o = TtsOutcome.ok
          ∧ firstChar (play_summary summary voice instructions timestamp o s).response
            = some '✅')
        ∨ firstChar (play_summary summary voice instructions timestamp o s).response
          = some '❌' := by
    intro o
    cases h : (validationErrors summary voice).isEmpty
    · cases o <;>
        · right
          simp only [play_summary, h, Bool.false_eq_true, if_false]
          apply firstChar_append
          decide
    · cases o with
      | ok =>
        left
        refine ⟨rfl, ?_⟩
        simp only [play_summary, h, if_true]
        apply firstChar_append
        apply firstChar_append
        apply firstChar_append
        apply firstChar_append
        decide
      | createTtsError code msg =>
        right
        simp only [play_summary, h, if_true]
        apply firstChar_append
        apply firstChar_append
        apply firstChar_append
        decide
      | createOtherError msg =>
        right
        simp only [play_summary, h, if_true]
        apply firstChar_append
        decide
      | streamError msg =>
        right
        simp only [play_summary, h, if_true]
        apply firstChar_append
        decide
      | playError msg =>
        right
        simp only [play_summary, h, if_true]
        apply firstChar_append
        decide
  refine ⟨?_, ?_, ?_, ?_⟩
  · rcases hplay outcome with ⟨_, hok⟩ | hx
    · exact Or.inl hok
    · exact Or.inr hx
  · unfold set_voice
    by_cases hv : v ∈ VALID_VOICES
    · rw [if_pos hv]
      left
      apply firstChar_append
      apply firstChar_append
      decide
    · rw [if_neg hv]
      right
      apply firstChar_append
      decide
  · unfold set_tone
    by_cases ht : t = ""
    · rw [if_pos ht]
      right
      apply firstChar_append
      decide
    · rw [if_neg ht]
      left
      apply firstChar_append
      apply firstChar_append
      decide
  · intro hne
    rcases hplay outcome with ⟨hok, _⟩ | hx
    · exact absurd hok hne
    · exact hx

theorem c6_handlers_marker_discipline_witness :
    firstChar (play_summary "hi" none none 3 (TtsOutcome.streamError "boom")
        initialState).response = some '❌' :=
  (c6_handlers_marker_discipline "hi" none none 3 (TtsOutcome.streamError "boom")
    "nova" "calm" initialState).2.2.2 (by decide)

/-- Claim C7: `play_summary` with an empty summary returns the validation
error string, the provider is never invoked, no artifact path is generated
and no file is written, and the state is untouched — validation precedes
the provider call and the file write. -/
theorem c7_empty_summary_rejected (voice instructions : Option String)
    (timestamp : Nat) (outcome : TtsOutcome) (s : UserState) :
    (play_summary "" voice instructions timestamp outcome s).response
        = "❌ Invalid arguments: " ++ String.intercalate ", " (validationErrors "" voice) ∧
      summaryLengthError ∈ validationErrors "" voice ∧
      (play_summary "" voice instructions timestamp outcome s).providerCalled = false ∧
      (play_summary "" voice instructions timestamp outcome s).fileWritten = false ∧
      (play_summary "" voice instructions timestamp outcome s).speechFile = none ∧
      (play_summary "" voice instructions timestamp outcome s).state = s := by
  have hmem : summaryLengthError ∈ validationErrors "" voice := by
    unfold validationErrors
    simp
  have hne : (validationErrors "" voice).isEmpty = false := by
    cases herrs : validationErrors "" voice with
    | nil => rw [herrs] at hmem; simp at hmem
    | cons a l => rfl
  refine ⟨?_, hmem, ?_, ?_, ?_, ?_⟩ <;> cases outcome <;> simp [play_summary, hne]

/-- Claim C8: a `play_summary` call with an explicit valid voice uses that
voice for the call and leaves the stored preference record exactly as it
was — the state is not mutated and `save_state` is not invoked. -/
theorem c8_explicit_voice_overrides_without_mutation (V summary : String)
    (hV : V ∈ VALID_VOICES) (hsu : summary ≠ "") (instructions : Option String)
    (timestamp : Nat) (outcome : TtsOutcome) (s : UserState) :
    (play_summary summary (some V) instructions timestamp outcome s).usedVoice = some V ∧
      (play_summary summary (some V) instructions timestamp outcome s).state = s ∧
      (play_summary summary (some V) instructions timestamp outcome s).saved = false := by
  have hVne : V ≠ "" := by
    intro h
    rw [h] at hV
    exact absurd hV (by decide)
  have he : (validationErrors summary (some V)).isEmpty = true := by
    unfold validationErrors
    simp [hsu, hV]
  refine ⟨?_,
    play_summary_state_eq summary (some V) instructions timestamp outcome s,
    play_summary_saved_eq summary (some V) instructions timestamp outcome s⟩
  cases outcome <;> simp [play_summary, he, orFallback, hVne]

theorem c8_explicit_voice_overrides_without_mutation_witness :
    (play_summary "hello" (some "nova") none 9 .ok initialState).usedVoice = some "nova" ∧
      (play_summary "hello" (some "nova") none 9 .ok initialState).state = initialState ∧
      (play_summary "hello" (some "nova") none 9 .ok initialState).saved = false :=
  c8_explicit_voice_overrides_without_mutation "nova" "hello" (by decide) (by decide)
    none 9 .ok initialState

end SummarizeMcp
